import Mathlib

set_option linter.unusedVariables false
set_option maxRecDepth 8192

/-!
Verification development for the GitCard profile-card exporters
(`app/profiles/exporters.py`).

The Python module renders a `ProfileCard` database record into an SVG
document, an inline-styled HTML document, a Markdown image snippet and a
README Markdown template.  This file gives a shallow embedding of that
module: Python strings become `String`/`List Char`, Python ints become
`Nat`, fallible/optional values become `Option`, and each exporter
becomes a total Lean function.  Definitions are translated from the
source; deviations forced by the embedding (exact rational arithmetic in
place of IEEE doubles, ASCII-only case folding) are noted at the
definition they concern.
-/

namespace GitCard

/-! ## Python string primitives -/

/-- Python's default `str.strip()` whitespace set, restricted to ASCII
(`' '`, `\t`, `\n`, `\r`, `\x0b`, `\x0c`). -/
def isPySpace (c : Char) : Bool :=
  c = ' ' || c = '\t' || c = '\n' || c = '\r' || c = Char.ofNat 11 || c = Char.ofNat 12

/-- `str.strip()` on a character list. -/
def pyStripList (l : List Char) : List Char :=
  ((l.dropWhile isPySpace).reverse.dropWhile isPySpace).reverse

/-- `str.strip()`. -/
def pyStrip (s : String) : String := String.mk (pyStripList s.toList)

/-- Python `a or b` for an optional string: `None` and `""` are falsy. -/
def pyOrStr (o : Option String) (d : String) : String :=
  match o with
  | none => d
  | some s => if s = "" then d else s

/-- Python truthiness of an optional string (`None` and `""` are falsy). -/
def pyTruthy (o : Option String) : Bool :=
  match o with
  | none => false
  | some s => s ≠ ""

/-- `str.lower()`, ASCII case folding (the categories and keys compared
against in the source are all ASCII). -/
def pyLower (s : String) : String := String.mk (s.toList.map Char.toLower)

/-- `str.upper()`, ASCII case folding. -/
def pyUpper (s : String) : String := String.mk (s.toList.map Char.toUpper)

/-- One rewriting step list for `str.replace`, left to right and
non-overlapping, with `fuel` bounding the recursion (callers pass the
text's length; each step consumes at least one character for the
non-empty patterns used by the source). -/
def replaceFuel : Nat → List Char → List Char → List Char → List Char
  | 0, _, _, l => l
  | _ + 1, _, _, [] => []
  | fuel + 1, pat, rep, c :: rest =>
    if pat.isPrefixOf (c :: rest) then
      rep ++ replaceFuel fuel pat rep (List.drop pat.length (c :: rest))
    else
      c :: replaceFuel fuel pat rep rest

/-- Python `s.replace(pat, rep)` for a non-empty `pat`. -/
def pyReplace (s pat rep : String) : String :=
  String.mk (replaceFuel s.toList.length pat.toList rep.toList s.toList)

/-- `html.escape(s)` with the default `quote=True`: the five HTML entity
replacements of CPython's `html.escape`. -/
def pyHtmlEscape (s : String) : String :=
  String.mk (s.toList.flatMap fun c =>
    if c = '&' then "&amp;".toList
    else if c = '<' then "&lt;".toList
    else if c = '>' then "&gt;".toList
    else if c = Char.ofNat 34 then "&quot;".toList
    else if c = Char.ofNat 39 then "&#x27;".toList
    else [c])

/-- Python `s.startswith(pre)`. -/
def pyStartsWith (s pre : String) : Bool := pre.toList.isPrefixOf s.toList

/-- Python `c in s` for a single character. -/
def pyContains (s : String) (c : Char) : Bool := s.toList.contains c

/-- Whether `pat` occurs as a contiguous substring of the character list. -/
def containsSubList (pat : List Char) : List Char → Bool
  | [] => pat.isEmpty
  | c :: rest => pat.isPrefixOf (c :: rest) || containsSubList pat rest

/-- Whether `pat` occurs as a contiguous substring of `hay`. -/
def strContains (hay pat : String) : Bool := containsSubList pat.toList hay.toList

/-- Rendering of the Python floats produced by `int + int/2` arithmetic in
the SVG exporter: the argument is twice the value, the result is the
`repr` of the float (`"450.0"`, `"117.5"`).  These values are exact in
binary floating point, so `repr` prints them exactly. -/
def halfStr (twice : Nat) : String :=
  if twice % 2 = 0 then toString (twice / 2) ++ ".0" else toString (twice / 2) ++ ".5"

/-! ## Color extraction (`_extract_gradient_colors`, lines 894-1001)

The source scans the gradient string with
`(?:#([A-Fa-f0-9]{6}|[A-Fa-f0-9]{3})|rgb\(\s*(\d+)\s*,\s*(\d+)\s*,\s*(\d+)\s*\))`
via `re.finditer` (left to right, non-overlapping, the 6-digit
alternative before the 3-digit one, the hex alternative before the rgb
one), then falls back to a hex-only and an rgb-only scan when the
combined scan found nothing. -/

/-- `[A-Fa-f0-9]`. -/
def isHexDigitChar (c : Char) : Bool :=
  c.isDigit || ('a' ≤ c && c ≤ 'f') || ('A' ≤ c && c ≤ 'F')

/-- One color token matched by the scan. -/
inductive ColorTok where
  | hex6 (digits : List Char)
  | hex3 (d1 d2 d3 : Char)
  | rgb (r g b : Nat)
deriving DecidableEq, Repr

/-- Decimal digits to a number (`int(...)` on a `\d+` match). -/
def digitsToNat (ds : List Char) : Nat :=
  ds.foldl (fun a c => a * 10 + (c.toNat - 48)) 0

/-- `\s*(\d+)`: skip whitespace, then require at least one digit. -/
def parseRgbComponent (l : List Char) : Option (Nat × List Char) :=
  let l' := l.dropWhile isPySpace
  let ds := l'.takeWhile Char.isDigit
  if ds.isEmpty then none
  else some (digitsToNat ds, l'.dropWhile Char.isDigit)

/-- `\s*` then the literal character `c`. -/
def expectChar (c : Char) (l : List Char) : Option (List Char) :=
  match l.dropWhile isPySpace with
  | x :: rest => if x = c then some rest else none
  | [] => none

/-- Match `rgb\(\s*(\d+)\s*,\s*(\d+)\s*,\s*(\d+)\s*\)` at the head of the
list; on success return the token and the remaining input. -/
def matchRgbAt : List Char → Option (ColorTok × List Char)
  | 'r' :: 'g' :: 'b' :: '(' :: rest => do
    let (r, l1) ← parseRgbComponent rest
    let l2 ← expectChar ',' l1
    let (g, l3) ← parseRgbComponent l2
    let l4 ← expectChar ',' l3
    let (b, l5) ← parseRgbComponent l4
    let l6 ← expectChar ')' l5
    some (ColorTok.rgb r g b, l6)
  | _ => none

/-- Match `#([A-Fa-f0-9]{6}|[A-Fa-f0-9]{3})` at the head of the list
(the 6-digit alternative tried first, as in the source's regex). -/
def matchHexAt : List Char → Option (ColorTok × List Char)
  | '#' :: rest =>
    let h6 := rest.take 6
    if h6.length = 6 ∧ h6.all isHexDigitChar then
      some (ColorTok.hex6 h6, rest.drop 6)
    else
      match rest with
      | a :: b :: c :: rest3 =>
        if isHexDigitChar a ∧ isHexDigitChar b ∧ isHexDigitChar c then
          some (ColorTok.hex3 a b c, rest3)
        else none
      | _ => none
  | _ => none

/-- The combined pattern: the hex alternative, then the rgb alternative. -/
def matchColorAt (l : List Char) : Option (ColorTok × List Char) :=
  match matchHexAt l with
  | some r => some r
  | none => matchRgbAt l

/-- `re.finditer`: try the matcher at each position left to right; on a
match, continue after the matched text, otherwise advance one character.
`fuel` bounds the recursion; every step strictly shrinks the input, so
the initial fuel `l.length` never runs out. -/
def scanColorsAux : Nat → (List Char → Option (ColorTok × List Char)) → List Char → List ColorTok
  | 0, _, _ => []
  | _ + 1, _, [] => []
  | fuel + 1, matcher, c :: rest =>
    match matcher (c :: rest) with
    | some (t, rest2) => t :: scanColorsAux fuel matcher rest2
    | none => scanColorsAux fuel matcher rest

/-- All matches of the combined hex-or-rgb pattern, in order. -/
def findAllColors (l : List Char) : List ColorTok := scanColorsAux l.length matchColorAt l

/-- All matches of the hex-only fallback pattern, in order. -/
def findAllHex (l : List Char) : List ColorTok := scanColorsAux l.length matchHexAt l

/-- All matches of the rgb-only fallback pattern, in order. -/
def findAllRgb (l : List Char) : List ColorTok := scanColorsAux l.length matchRgbAt l

/-- Hex digits (lowercase, most significant first) of `n`, as Python's
`format(n, "x")`; `fuel` bounds the division chain. -/
def hexDigitsAux : Nat → Nat → List Char → List Char
  | 0, _, acc => acc
  | fuel + 1, n, acc =>
    if n = 0 then acc else hexDigitsAux fuel (n / 16) (Nat.digitChar (n % 16) :: acc)

/-- `format(n, "x")`. -/
def natToHex (n : Nat) : List Char := if n = 0 then ['0'] else hexDigitsAux n n []

/-- `format(n, "02x")`: at least two digits, zero-padded (`5 → "05"`,
`255 → "ff"`, `999 → "3e7"`). -/
def pad2hex (n : Nat) : List Char :=
  let ds := natToHex n
  if ds.length < 2 then '0' :: ds else ds

/-- `normalize_hex` / `rgb_to_hex` (lines 922-930) applied to one token:
3-digit hex is expanded digit by digit, 6-digit hex is kept (case
preserved), rgb channels go through `format(_, "02x")`. -/
def ColorTok.toHexList : ColorTok → List Char
  | .hex6 ds => '#' :: ds
  | .hex3 a b c => ['#', a, a, b, b, c, c]
  | .rgb r g b => '#' :: (pad2hex r ++ pad2hex g ++ pad2hex b)

/-- `ColorTok.toHexList` as a string. -/
def ColorTok.toHex (t : ColorTok) : String := String.mk t.toHexList

/-- A well-formed scanned token: hex digits where the scanner guarantees
them, rgb channels in the CSS range `0..255`. -/
def ColorTok.validb : ColorTok → Bool
  | .hex6 ds => ds.length == 6 && ds.all isHexDigitChar
  | .hex3 a b c => isHexDigitChar a && isHexDigitChar b && isHexDigitChar c
  | .rgb r g b => decide (r ≤ 255) && decide (g ≤ 255) && decide (b ≤ 255)

/-- `"#"` followed by exactly six hex digits. -/
def isHex6List : List Char → Bool
  | '#' :: rest => rest.length == 6 && rest.all isHexDigitChar
  | _ => false

/-- `"#"` followed by exactly six hex digits. -/
def isHex6 (s : String) : Bool := isHex6List s.toList

/-- Shallow embedding of `_extract_gradient_colors` (lines 894-1001) on
the two card fields it reads (`card.gradient`, `card.primary_color`).
The match list of the combined scan decides the branch; the hex-only and
rgb-only fallback scans return directly (without the equal-colors check,
exactly as the source's early returns do). -/
def extract_gradient_colors (gradient primary_color : Option String) : String × String :=
  let default_primary := pyOrStr primary_color "#667eea"
  let default_secondary := "#764ba2"
  let g := gradient.getD ""
  if g = "" ∨ pyStrip g = "" then (default_primary, default_secondary)
  else
    let gradient_clean := pyStripList g.toList
    match (findAllColors gradient_clean).map ColorTok.toHex with
    | c0 :: crest =>
      let primary := c0
      let secondary := match crest with | c1 :: _ => c1 | [] => default_secondary
      let secondary2 := if primary = secondary then default_secondary else secondary
      (primary, secondary2)
    | [] =>
      match findAllHex gradient_clean with
      | h0 :: hrest =>
        (h0.toHex, match hrest with | h1 :: _ => h1.toHex | [] => default_secondary)
      | [] =>
        match findAllRgb gradient_clean with
        | r0 :: rrest =>
          (r0.toHex, match rrest with | r1 :: _ => r1.toHex | [] => default_secondary)
        | [] => (default_primary, default_secondary)

/-! ## Luminance (`_is_light_color`, lines 141-165) -/

/-- Value of one hex digit (`int(c, 16)` per digit).  The source's
`int(_, 16)` raises on a non-hex character; this total version returns 0
there, and every caller below only reaches it with hex digits. -/
def hexVal (c : Char) : Nat :=
  if c.isDigit then c.toNat - 48
  else if 'a' ≤ c && c ≤ 'f' then c.toNat - 87
  else if 'A' ≤ c && c ≤ 'F' then c.toNat - 55
  else 0

/-- `int(s[i:i+2], 16)` for a two-character slice. -/
def hexPairVal (a b : Char) : Nat := hexVal a * 16 + hexVal b

/-- The channel-parsing part of `_is_light_color`: strip leading `#`,
expand a 3-character value digit by digit, then read the slices
`[0:2]`, `[2:4]`, `[4:6]`.  `none` corresponds to inputs on which the
source's slicing/`int` would raise (fewer than six characters after
expansion). -/
def parse_hex_channels (s : String) : Option (Nat × Nat × Nat) :=
  let l := s.toList.dropWhile (fun c => c = '#')
  let l := if l.length = 3 then l.flatMap (fun c => [c, c]) else l
  match l with
  | c0 :: c1 :: c2 :: c3 :: c4 :: c5 :: _ =>
    some (hexPairVal c0 c1, hexPairVal c2 c3, hexPairVal c4 c5)
  | _ => none

/-- Embedding of `_is_light_color` (lines 141-165).  The source computes
`(0.299*r + 0.587*g + 0.114*b)/255 > 0.5` in IEEE double precision.
Over all 256^3 channel triples the double computation decides exactly as
the exact comparison `299*r + 587*g + 114*b > 127500`, except at the
single triple `(218, 58, 248)` (luminance exactly 1/2), where the
accumulated rounding of the three products pushes the double value just
above 0.5; the embedding reproduces that point so that it agrees with
the source on every input. -/
def is_light_color (s : String) : Bool :=
  match parse_hex_channels s with
  | some (r, g, b) =>
    decide (127500 < 299 * r + 587 * g + 114 * b) || (r == 218 && g == 58 && b == 248)
  | none => false

/-! ## Badge layout (`generate_svg`, lines 1040-1063 and 1152-1182) -/

/-- Badge width for a label: `max(60, min(200, len(label)*8 + 24))`
(lines 1055 and 1165). -/
def badge_width (label : String) : Nat := max 60 (min 200 (label.length * 8 + 24))

/-- One badge as placed by the rendering loop of `generate_svg`. -/
structure BadgePlace where
  x : Nat
  y : Nat
  w : Nat
  label : String
  color : String
deriving DecidableEq, Repr

/-- The badge placement loop (lines 1152-1181): badges start at
`x = 40`, advance by `width + 12`, and wrap to `x = 40`,
`y += 28 + 10` when `x + width` would pass `max_width = 900 - 80 = 820`.
The wrap test happens before the badge is placed, exactly as in the
source. -/
def placeBadgesAux : Nat → Nat → List (String × String) → List BadgePlace
  | _, _, [] => []
  | bx, y0, (lab, col) :: rest =>
    let w := badge_width lab
    if 820 < bx + w then
      { x := 40, y := y0 + 28 + 10, w := w, label := lab, color := col } ::
        placeBadgesAux (40 + w + 12) (y0 + 28 + 10) rest
    else
      { x := bx, y := y0, w := w, label := lab, color := col } ::
        placeBadgesAux (bx + w + 12) y0 rest

/-- Badge placement for one category, starting a row at `x = 40` and the
given baseline `y`. -/
def placeBadges (startY : Nat) (items : List (String × String)) : List BadgePlace :=
  placeBadgesAux 40 startY items

/-- Row count produced by the placement loop: one row plus one per wrap
(same wrap rule as `placeBadgesAux`). -/
def placedRowsAux : Nat → Nat → List String → Nat
  | rows, _, [] => rows
  | rows, bx, lab :: rest =>
    let w := badge_width lab
    if 820 < bx + w then placedRowsAux (rows + 1) (40 + w + 12) rest
    else placedRowsAux rows (bx + w + 12) rest

/-- Row count of the placement loop for a label list. -/
def placedRows (labels : List String) : Nat := placedRowsAux 1 40 labels

/-- The row counter of the stacks-height computation (lines 1050-1061):
accumulated row width with an 8px gap against
`max_width = 900 - 80 - 40 = 780`, wrapping only when the row is
non-empty. -/
def heightCalcRowsAux : Nat → Nat → List String → Nat
  | rows, _, [] => rows
  | rows, crw, lab :: rest =>
    let w := badge_width lab
    if 780 < crw + w ∧ 0 < crw then heightCalcRowsAux (rows + 1) (w + 8) rest
    else heightCalcRowsAux rows (crw + w + 8) rest

/-- Rows assumed by the canvas-height computation for a label list. -/
def heightCalcRows (labels : List String) : Nat := heightCalcRowsAux 1 0 labels

/-- The wrap relation between two consecutively placed badges: the next
badge continues the row 12px after the previous one unless that would
pass 820, in which case it starts a new row at `x = 40`, 38px lower. -/
def badgeStep (p q : BadgePlace) : Prop :=
  if 820 < p.x + p.w + 12 + q.w then q.x = 40 ∧ q.y = p.y + 38
  else q.x = p.x + p.w + 12 ∧ q.y = p.y

/-! ## Data model

`ProfileCard` rows (`app/profiles/db_models.py`) carry JSON lists of
stack/contact/repository dictionaries; `Option` marks the keys the
exporters read with `.get` defaults or `getattr` fallbacks. -/

/-- One entry of `card.stacks`. -/
structure StackEntry where
  key : Option String
  label : Option String
  category : Option String
  color : Option String
deriving DecidableEq, Repr

/-- One entry of `card.contacts`.  `ctype` embeds the dictionary key
`"type"`. -/
structure ContactEntry where
  ctype : Option String
  label : Option String
  value : Option String
deriving DecidableEq, Repr

/-- One entry of `card.repositories`. -/
structure RepoEntry where
  name : Option String
  description : Option String
  html_url : Option String
  language : Option String
  stargazers_count : Option Nat
  forks_count : Option Nat
deriving DecidableEq, Repr

/-- The card record as the exporters read it.  The source's field
`stacks` is named `stackList` here only because `stacks` is a reserved
token in this Lean environment. -/
structure ProfileCard where
  id : Nat
  name : String
  title : String
  tagline : Option String
  primary_color : Option String
  gradient : Option String
  show_stacks : Bool
  show_contact : Bool
  show_github_stats : Bool
  show_baekjoon : Bool
  baekjoon_id : Option String
  stack_label_lang : Option String
  stack_alignment : Option String
  stackList : List StackEntry
  contacts : List ContactEntry
  repositories : List RepoEntry
deriving DecidableEq, Repr

/-- The externally supplied statistics snapshot
(`stats: Optional[Dict[str, Optional[int]]]`).  `none` at the outer
level models both a `None` dictionary and an empty one (both falsy in
the source's `if stats:`). -/
structure StatsSnapshot where
  repositories : Option Nat
  stars : Option Nat
  followers : Option Nat
  following : Option Nat
deriving DecidableEq, Repr

/-- The two configuration URLs the exporters read from `app.config.settings`. -/
structure Settings where
  api_base_url : String
  frontend_base_url : String
deriving DecidableEq, Repr

/-- Ambient sources of nondeterminism a renderer could observe: a clock
value and a random seed.  The exporter source never consults either (its
only side effects are debug `print` calls, which do not enter the
returned strings), so the renderers below receive an environment and
ignore it; claim C5's theorem states that the output is invariant in it. -/
structure RenderEnv where
  now : Nat
  rand : Nat
deriving DecidableEq, Repr

/-! ## Static icon tables (lines 14-139) -/

/-- `CONTACT_ICON_MAP`: contact type to Simple Icons slug. -/
def CONTACT_ICON_MAP : List (String × String) :=
  [("mail", "gmail"), ("instagram", "instagram"), ("linkedin", "inspire"),
   ("velog", "velog"), ("reddit", "reddit"), ("facebook", "facebook"),
   ("youtube", "youtube"), ("x", "x"), ("thread", "threads")]

/-- `STACK_ICON_MAP`: stack key to Simple Icons slug (the `aws` entry is
commented out in the source). -/
def STACK_ICON_MAP : List (String × String) :=
  [("javascript", "javascript"), ("typescript", "typescript"), ("python", "python"),
   ("java", "openjdk"), ("kotlin", "kotlin"), ("swift", "swift"), ("dart", "dart"),
   ("c", "c"), ("cpp", "cplusplus"), ("csharp", "csharp"), ("go", "go"),
   ("rust", "rust"), ("php", "php"), ("ruby", "ruby"), ("scala", "scala"),
   ("r", "r"), ("shell", "gnubash"),
   ("react", "react"), ("nextjs", "nextdotjs"), ("vue", "vuedotjs"),
   ("nuxt", "nuxtdotjs"), ("svelte", "svelte"), ("angular", "angular"),
   ("jquery", "jquery"), ("html", "html5"), ("css", "css3"), ("sass", "sass"),
   ("tailwind", "tailwindcss"), ("bootstrap", "bootstrap"),
   ("styled-components", "styledcomponents"), ("vite", "vite"),
   ("react-native", "react"), ("flutter", "flutter"), ("android", "android"),
   ("ios", "ios"), ("swiftui", "swift"),
   ("nodejs", "nodedotjs"), ("express", "express"), ("nest", "nestjs"),
   ("fastapi", "fastapi"), ("django", "django"), ("flask", "flask"),
   ("spring", "spring"), ("spring-boot", "springboot"), ("laravel", "laravel"),
   ("ruby-on-rails", "rubyonrails"), ("aspnet", "dotnet"), ("grpc", "grpc"),
   ("mysql", "mysql"), ("postgresql", "postgresql"), ("sqlite", "sqlite"),
   ("mariadb", "mariadb"), ("mongodb", "mongodb"), ("redis", "redis"),
   ("elasticsearch", "elasticsearch"), ("dynamodb", "amazondynamodb"),
   ("firebase-firestore", "firebase"),
   ("gcp", "googlecloud"), ("azure", "microsoftazure"), ("docker", "docker"),
   ("kubernetes", "kubernetes"), ("nginx", "nginx"), ("apache", "apache"),
   ("gitlab-ci", "gitlab"), ("github-actions", "githubactions"),
   ("jenkins", "jenkins"), ("vercel", "vercel"), ("netlify", "netlify"),
   ("cloudflare", "cloudflare"),
   ("git", "git"), ("github", "github"), ("gitlab", "gitlab"),
   ("bitbucket", "bitbucket"), ("jira", "jira"), ("notion", "notion"),
   ("slack", "slack"), ("discord", "discord"), ("figma", "figma"),
   ("pandas", "pandas"), ("numpy", "numpy"), ("scikit-learn", "scikitlearn"),
   ("tensorflow", "tensorflow"), ("pytorch", "pytorch"), ("opencv", "opencv"),
   ("huggingface", "huggingface"),
   ("jest", "jest"), ("cypress", "cypress"), ("playwright", "playwright"),
   ("pytest", "pytest"), ("junit", "junit"),
   ("webpack", "webpack"), ("rollup", "rollupdotjs"), ("babel", "babel"),
   ("eslint", "eslint"), ("prettier", "prettier"), ("npm", "npm"),
   ("yarn", "yarn"), ("pnpm", "pnpm")]

/-! ## Category normalization and icon resolution -/

/-- The ten known categories, in render order (`category_order`, lines
585-588 and 1644-1647). -/
def category_order : List String :=
  ["language", "frontend", "mobile", "backend", "database",
   "infra", "collaboration", "ai-ml", "testing", "tool"]

/-- Korean category labels (`category_labels_ko`). -/
def category_labels_ko : List (String × String) :=
  [("language", "언어"), ("frontend", "프론트엔드"), ("mobile", "모바일"),
   ("backend", "백엔드"), ("database", "데이터베이스"), ("infra", "인프라"),
   ("collaboration", "협업 도구"), ("ai-ml", "AI/ML"), ("testing", "테스팅"),
   ("tool", "도구")]

/-- English category labels (`category_labels_en`). -/
def category_labels_en : List (String × String) :=
  [("language", "Language"), ("frontend", "Frontend"), ("mobile", "Mobile"),
   ("backend", "Backend"), ("database", "Database"), ("infra", "Infra"),
   ("collaboration", "Collaboration"), ("ai-ml", "AI / ML"),
   ("testing", "Testing"), ("tool", "Tools")]

/-- The label-language selection (lines 614-619 and 1674-1678):
`'ko'` or `'en'`, defaulting to `'en'` when absent, empty or anything
else. -/
def pick_stack_label_lang (o : Option String) : String :=
  let lang := o.getD "en"
  if lang = "" ∨ (lang ≠ "ko" ∧ lang ≠ "en") then "en" else lang

/-- Category normalization of `generate_html` (lines 627-632) and
`generate_readme_template` (lines 1685-1690): the raw category (missing
key defaults to `"tool"`) is lowercased — no trimming — and replaced by
`"tool"` unless the lowercased value is one of the ten known
categories.  (Python's `str.lower()` is Unicode case folding; ASCII
folding is used here, and the known categories are all ASCII.) -/
def normalize_category (category : Option String) : String :=
  let raw := category.getD "tool"
  let lower := pyLower raw
  if lower ∈ category_order then lower else "tool"

/-- The grouping key of `generate_svg` (line 1026):
`stack.get('category', 'Other')`, with no normalization at all. -/
def svg_group_category (s : StackEntry) : String := s.category.getD "Other"

/-- Key derivation from a label when the stack entry has no key
(lines 684 and 1722): lowercase, spaces to hyphens, periods removed,
`++` to `plusplus`. -/
def normalize_stack_key (label : String) : String :=
  pyReplace (pyReplace (pyReplace (pyLower label) " " "-") "." "") "++" "plusplus"

/-- The icon-key resolution fallback chain shared by `generate_html`
(lines 679-698) and `generate_readme_template` (lines 1717-1736): keep a
non-empty key; otherwise derive one from the label, trying the exact
normalized form, then the normalized form with hyphens, periods and
spaces removed, in that order, against `STACK_ICON_MAP`; when nothing
hits, the key stays empty. -/
def resolve_stack_key (stack_key0 : String) (stack_label : String) : String :=
  if stack_key0 = "" ∧ stack_label ≠ "" then
    let normalized := normalize_stack_key stack_label
    if (STACK_ICON_MAP.lookup normalized).isSome then normalized
    else
      let variations := [pyReplace normalized "-" "", pyReplace normalized "." "",
        pyReplace normalized " " ""]
      match variations.find? (fun v => (STACK_ICON_MAP.lookup v).isSome) with
      | some v => v
      | none => stack_key0
  else stack_key0

/-- `STACK_ICON_MAP.get(stack_key) if stack_key else None`. -/
def stack_icon_slug (stack_key : String) : Option String :=
  if stack_key ≠ "" then STACK_ICON_MAP.lookup stack_key else none

/-- `CONTACT_ICON_MAP.get(contact_type) if contact_type else None`. -/
def contact_icon_slug (contact_type : String) : Option String :=
  if contact_type ≠ "" then CONTACT_ICON_MAP.lookup contact_type else none

/-- Icon color over a badge background (lines 713-714, 1755-1756):
black over a light background, white otherwise. -/
def badge_icon_color (color : String) : String :=
  if is_light_color color then "black" else "white"

/-- Badge text color of `generate_html` (line 716): same rule as the
icon color. -/
def html_badge_text_color (color : String) : String :=
  if is_light_color color then "black" else "white"

/-- Link-target inference of `generate_html`'s contact grid (lines
756-770): `(href, target attribute, rel attribute)`. -/
def html_contact_link (value : String) : String × String × String :=
  let is_email := pyContains value '@' && !(pyStartsWith value "http")
  let is_url := pyStartsWith value "http://" || pyStartsWith value "https://"
  if is_email then ("mailto:" ++ value, "", "")
  else if is_url then
    (value, "target=\"_blank\"", "rel=\"noopener noreferrer\"")
  else
    ("https://" ++ value, "target=\"_blank\"", "rel=\"noopener noreferrer\"")

/-- The `<a {attrs} ...>` attribute string built at lines 788-792 and
1805-1809: `href`, then the target and rel attributes when non-empty. -/
def link_attrs (href target_attr rel_attr : String) : String :=
  let attrs := "href=\"" ++ href ++ "\""
  let attrs := if target_attr ≠ "" then attrs ++ " " ++ target_attr else attrs
  if rel_attr ≠ "" then attrs ++ " " ++ rel_attr else attrs

/-- `display_label` for a contact (lines 785, 1213, 1472, 1802): the
uppercased label, else the uppercased type, else `'CONTACT'`. -/
def contact_display_label (label contact_type : String) : String :=
  if label ≠ "" then pyUpper label
  else if contact_type ≠ "" then pyUpper contact_type
  else "CONTACT"

/-! ## Markup renderer (`generate_html`, lines 563-891)

The section builders below follow the source's statement order; the
source collects stacks into an insertion-ordered dictionary keyed by the
normalized category and then iterates `category_order`, which is
observably the same as filtering the stack list per known category, as
done here. -/

/-- One stack badge of the HTML stacks section (loop body, lines
675-724). -/
def html_stack_badge (stack : StackEntry) : String :=
  let stack_label := pyHtmlEscape (stack.label.getD (stack.key.getD ""))
  let stack_color := stack.color.getD "#667eea"
  let stack_key := resolve_stack_key (stack.key.getD "") stack_label
  let stack_label := if stack_key = "java" then "OpenJDK" else stack_label
  let icon_slug := stack_icon_slug stack_key
  let text_color := html_badge_text_color stack_color
  let icon_html :=
    match icon_slug with
    | some slug =>
      "<img src=\"https://cdn.simpleicons.org/" ++ slug ++ "/" ++
        badge_icon_color stack_color ++
        "\" alt=\"\" style=\"width: 16px; height: 16px; margin-right: 6px; vertical-align: middle; object-fit: contain;\" />"
    | none => ""
  "          <span style=\"display: inline-flex; align-items: center; gap: 6px; padding: 8px 16px; border-radius: 20px; font-size: 14px; font-weight: 600; color: " ++
    text_color ++ "; background-color: " ++ stack_color ++
    "; box-shadow: 0 2px 8px rgba(0, 0, 0, 0.15);\">" ++ icon_html ++ stack_label ++
    "</span>\n"

/-- One category block of the HTML stacks section (lines 663-727). -/
def html_category_block (card : ProfileCard) (category : String) : String :=
  let entries := card.stackList.filter (fun s => normalize_category s.category = category)
  if entries ≠ [] then
    let category_labels :=
      if pick_stack_label_lang card.stack_label_lang = "ko" then category_labels_ko
      else category_labels_en
    let category_escaped := pyHtmlEscape ((category_labels.lookup category).getD (pyUpper category))
    let alignment := pyOrStr card.stack_alignment "center"
    let justify_content :=
      if alignment = "left" then "flex-start"
      else if alignment = "right" then "flex-end" else "center"
    "      <div style=\"display: flex; flex-direction: column; gap: 12px;\">\n        <h3 style=\"font-size: 18px; font-weight: 600; margin: 0; color: #666; text-transform: uppercase; letter-spacing: 0.5px;\">" ++
      category_escaped ++
      "</h3>\n        <div style=\"display: flex; flex-wrap: wrap; gap: 12px; justify-content: " ++
      justify_content ++ ";\">\n" ++
      String.join (entries.map html_stack_badge) ++
      "        </div>\n      </div>\n"
  else ""

/-- The HTML stacks section (lines 654-730); empty when the flag is off
or there are no stacks. -/
def html_stacks_section (card : ProfileCard) : String :=
  if card.show_stacks ∧ card.stackList ≠ [] then
    "  <!-- Stacks Section -->\n  <div style=\"padding: 32px 40px; background: white;\">\n    <h2 style=\"font-size: 28px; font-weight: 700; margin: 0 0 24px 0; color: #333;\">Stacks</h2>\n    <div style=\"display: flex; flex-direction: column; gap: 24px;\">\n" ++
      String.join (category_order.map (html_category_block card)) ++
      "    </div>\n  </div>\n"
  else ""

/-- One contact card of the HTML contact grid (loop body, lines
739-801); contacts with an empty value render nothing. -/
def html_contact_entry (contact : ContactEntry) : String :=
  let label := pyHtmlEscape (contact.label.getD "")
  let value := pyHtmlEscape (contact.value.getD "")
  let contact_type := contact.ctype.getD ""
  let icon_slug := contact_icon_slug contact_type
  let (href, target_attr, rel_attr) := html_contact_link value
  let icon_html :=
    match icon_slug with
    | some slug =>
      "<img src=\"https://cdn.simpleicons.org/" ++ slug ++ "/000000\" alt=\"" ++ label ++
        "\" style=\"width: 32px; height: 32px; object-fit: contain;\" />"
    | none => ""
  if value ≠ "" then
    let display_label := contact_display_label label contact_type
    let attrs := link_attrs href target_attr rel_attr
    "      <a " ++ attrs ++
      " style=\"display: flex; flex-direction: column; padding: 20px; background: white; border-radius: 12px; box-shadow: 0 2px 8px rgba(0, 0, 0, 0.1); text-decoration: none; color: inherit; transition: transform 0.2s, box-shadow 0.2s;\" onmouseover=\"this.style.transform='translateY(-2px)'; this.style.boxShadow='0 4px 12px rgba(0, 0, 0, 0.15)';\" onmouseout=\"this.style.transform='translateY(0)'; this.style.boxShadow='0 2px 8px rgba(0, 0, 0, 0.1)';\">\n        <div style=\"display: flex; align-items: center; gap: 12px; margin-bottom: 8px;\">\n          " ++
      (if icon_html ≠ "" then icon_html
       else "<div style=\"width: 32px; height: 32px; background: #e0e0e0; border-radius: 4px;\"></div>") ++
      "\n          <span style=\"font-size: 14px; font-weight: 600; color: #667eea; text-transform: uppercase; letter-spacing: 0.5px;\">" ++
      display_label ++
      "</span>\n        </div>\n        <span style=\"font-size: 16px; color: #333; word-break: break-word;\">" ++
      value ++ "</span>\n      </a>\n"
  else ""

/-- The HTML contact section (lines 733-804). -/
def html_contacts_section (card : ProfileCard) : String :=
  if card.show_contact ∧ card.contacts ≠ [] then
    "  <!-- 연락처 섹션 -->\n  <div style=\"padding: 32px 40px; background: #f8f9fa;\">\n    <h2 style=\"font-size: 28px; font-weight: 700; margin: 0 0 24px 0; color: #333;\">Contact</h2>\n    <div style=\"display: grid; grid-template-columns: repeat(auto-fill, minmax(250px, 1fr)); gap: 16px;\">\n" ++
      String.join (card.contacts.map html_contact_entry) ++
      "    </div>\n  </div>\n"
  else ""

/-- The HTML Baekjoon badge section (lines 806-821). -/
def html_baekjoon_section (card : ProfileCard) : String :=
  if card.show_baekjoon ∧ pyTruthy card.baekjoon_id then
    let safe_handle := pyHtmlEscape (card.baekjoon_id.getD "")
    "  <!-- 백준 티어 섹션 -->\n  <div style=\"padding: 32px 40px; background: white;\">\n    <h2 style=\"font-size: 28px; font-weight: 700; margin: 0 0 24px 0; color: #333;\">Baekjoon</h2>\n    <div style=\"text-align: center;\">\n      <a href=\"https://solved.ac/" ++
      safe_handle ++
      "/\" target=\"_blank\" rel=\"noopener noreferrer\">\n        <img src=\"http://mazassumnida.wtf/api/v2/generate_badge?boj=" ++
      safe_handle ++
      "\" alt=\"Solved.ac Profile\" />\n      </a>\n    </div>\n  </div>\n"
  else ""

/-- One static placeholder tile of the HTML statistics section (the four
repeated tiles of lines 830-845). -/
def html_stats_tile (gradient label : String) : String :=
  "      <div style=\"display: flex; flex-direction: column; align-items: center; justify-content: center; padding: 24px; background: " ++
    gradient ++
    "; border-radius: 12px; color: white; box-shadow: 0 4px 12px rgba(102, 126, 234, 0.3);\">\n        <div style=\"font-size: 36px; font-weight: 700; margin-bottom: 8px;\">-</div>\n        <div style=\"font-size: 14px; font-weight: 500; opacity: 0.9; text-transform: uppercase; letter-spacing: 0.5px;\">" ++
    label ++ "</div>\n      </div>\n"

/-- The HTML statistics section (lines 825-849): four placeholder tiles
and a pointer to the live card page (this renderer fetches no data). -/
def html_stats_section (card : ProfileCard) (gradient card_url : String) : String :=
  if card.show_github_stats then
    "  <!-- GitHub Stats Section -->\n  <div style=\"padding: 32px 40px; background: white;\">\n    <h2 style=\"font-size: 28px; font-weight: 700; margin: 0 0 24px 0; color: #333;\">Github-stats</h2>\n    <div style=\"display: grid; grid-template-columns: repeat(auto-fit, minmax(150px, 1fr)); gap: 20px;\">\n" ++
      html_stats_tile gradient "Repositories" ++
      html_stats_tile gradient "Stars" ++
      html_stats_tile gradient "Followers" ++
      html_stats_tile gradient "Following" ++
      "    </div>\n    <p style=\"text-align: center; margin-top: 16px; color: #666; font-size: 14px;\">※ GitHub 통계는 <a href=\"" ++
      card_url ++
      "\" target=\"_blank\" rel=\"noopener noreferrer\" style=\"color: #667eea; text-decoration: none;\">프로필 카드 페이지</a>에서 확인하세요.</p>\n  </div>\n"
  else ""

/-- One repository card of the HTML repositories section (loop body,
lines 859-884). -/
def html_repo_card (repo : RepoEntry) : String :=
  let repo_name := pyHtmlEscape (repo.name.getD "")
  let repo_description :=
    if pyTruthy repo.description then pyHtmlEscape (repo.description.getD "") else ""
  let repo_url := pyHtmlEscape (repo.html_url.getD "")
  let repo_language :=
    if pyTruthy repo.language then pyHtmlEscape (repo.language.getD "") else ""
  "      <a href=\"" ++ repo_url ++
    "\" target=\"_blank\" rel=\"noopener noreferrer\" style=\"display: flex; flex-direction: column; padding: 20px; background: #f8f9fa; border-radius: 12px; border: 1px solid #e5e7eb; text-decoration: none; color: inherit; transition: all 0.2s;\">\n        <div style=\"display: flex; justify-content: space-between; align-items: center; margin-bottom: 12px;\">\n          <h3 style=\"font-size: 18px; font-weight: 600; margin: 0; color: #667eea;\">" ++
    repo_name ++ "</h3>\n" ++
    (if repo_language ≠ "" then
      "          <span style=\"font-size: 12px; padding: 4px 8px; background: #e5e7eb; border-radius: 12px; color: #6b7280; font-weight: 500;\">" ++
        repo_language ++ "</span>\n"
     else "") ++
    "        </div>\n" ++
    (if repo_description ≠ "" then
      "        <p style=\"font-size: 14px; color: #6b7280; margin: 0 0 12px 0; line-height: 1.5; flex: 1;\">" ++
        repo_description ++ "</p>\n"
     else "") ++
    "        <div style=\"display: flex; gap: 16px; font-size: 14px; color: #9ca3af; margin-top: auto;\">\n          <span style=\"display: flex; align-items: center; gap: 4px;\">⭐ " ++
    toString (repo.stargazers_count.getD 0) ++
    "</span>\n          <span style=\"display: flex; align-items: center; gap: 4px;\">🍴 " ++
    toString (repo.forks_count.getD 0) ++
    "</span>\n        </div>\n      </a>\n"

/-- The HTML repositories section (lines 851-887). -/
def html_repos_section (card : ProfileCard) : String :=
  if card.repositories ≠ [] then
    "  <!-- Repositories Section -->\n  <div style=\"padding: 32px 40px; background: white;\">\n    <h2 style=\"font-size: 28px; font-weight: 700; margin: 0 0 24px 0; color: #333;\">Repositories</h2>\n    <div style=\"display: grid; grid-template-columns: repeat(auto-fill, minmax(300px, 1fr)); gap: 20px;\">\n" ++
      String.join (card.repositories.map html_repo_card) ++
      "    </div>\n  </div>\n"
  else ""

/-- Embedding of `generate_html` (lines 563-891).  `env` is the ambient
nondeterminism environment, never consulted (see `RenderEnv`). -/
def generate_html (env : RenderEnv) (st : Settings) (card : ProfileCard)
    (github_login : String) : String :=
  let card_url :=
    st.frontend_base_url ++ "/dashboard/" ++ github_login ++ "/cards/" ++ toString card.id
  let gradient :=
    pyOrStr card.gradient
      ("linear-gradient(135deg, " ++ pyOrStr card.primary_color "#667eea" ++
        " 0%, rgb(102, 126, 234) 100%)")
  let name := pyHtmlEscape card.name
  let title := pyHtmlEscape card.title
  let tagline := if pyTruthy card.tagline then pyHtmlEscape (card.tagline.getD "") else ""
  "<div style=\"max-width: 900px; margin: 0 auto; background: white; border-radius: 12px; overflow: hidden; box-shadow: 0 4px 20px rgba(0, 0, 0, 0.1); font-family: -apple-system, BlinkMacSystemFont, 'Segoe UI', Roboto, 'Helvetica Neue', Arial, sans-serif;\">\n  <!-- 배너 섹션 -->\n  <div style=\"background: " ++
    gradient ++
    "; padding: 60px 40px; text-align: center; color: white; border-radius: 12px 12px 0 0;\">\n    <div style=\"max-width: 800px; margin: 0 auto;\">\n      <h1 style=\"font-size: 42px; font-weight: 700; margin: 0 0 16px 0; line-height: 1.2;\">Hello World 👋 I'm " ++
    name ++
    "!</h1>\n      <p style=\"font-size: 24px; font-weight: 500; margin: 0 0 12px 0; opacity: 0.95;\">" ++
    title ++ "</p>\n" ++
    (if pyTruthy card.tagline then
      "      <p style=\"font-size: 18px; margin: 0; opacity: 0.85; font-weight: 400;\">" ++
        tagline ++ "</p>\n"
     else "") ++
    "    </div>\n  </div>\n" ++
    html_stacks_section card ++
    html_contacts_section card ++
    html_baekjoon_section card ++
    html_stats_section card gradient card_url ++
    html_repos_section card ++
    "</div>"

/-! ## Vector renderer (`generate_svg`, lines 1004-1272) -/

/-- The font-family attribute repeated in every SVG text element. -/
def svgFontFamily : String :=
  "font-family=\"-apple-system,BlinkMacSystemFont,'Segoe UI',Roboto,'Helvetica Neue',Arial,sans-serif\""

/-- Append one stack to the insertion-ordered category dictionary of
`generate_svg` (lines 1025-1033): the key is created even when the badge
itself is dropped for an empty label. -/
def svgGroupAdd (m : List (String × List (String × String))) (k : String)
    (v : Option (String × String)) : List (String × List (String × String)) :=
  match m with
  | [] => [(k, v.toList)]
  | (k', vs) :: rest =>
    if k' = k then (k', vs ++ v.toList) :: rest else (k', vs) :: svgGroupAdd rest k v

/-- `stacks_by_category` of `generate_svg` (lines 1022-1033): grouping by
the raw `svg_group_category` key; the badge label is
`stack.get("label") or stack.get("key") or ""`, escaped, kept only when
non-empty, with color `stack.get("color") or primary`. -/
def svg_groups (card : ProfileCard) (primary : String) :
    List (String × List (String × String)) :=
  if card.show_stacks ∧ card.stackList ≠ [] then
    card.stackList.foldl (fun m stack =>
      let category := svg_group_category stack
      let label := pyHtmlEscape (pyOrStr stack.label (pyOrStr stack.key ""))
      svgGroupAdd m category
        (if label ≠ "" then some (label, pyOrStr stack.color primary) else none)) []
  else []

/-- Height of one category block in the canvas-height computation
(lines 1045-1062): header, gap, rows counted by `heightCalcRows` over
the first 20 badge labels, inter-category gap. -/
def svg_category_height (badges : List (String × String)) : Nat :=
  let rows := heightCalcRows ((badges.take 20).map Prod.fst)
  18 + 12 + (rows * 28 + (rows - 1) * 10) + 24

/-- `stacks_height` (lines 1041-1063). -/
def svg_stacks_height (groups : List (String × List (String × String))) : Nat :=
  if groups ≠ [] then
    28 + 24 + groups.foldl (fun acc g => acc + svg_category_height g.2) 0 + 32 * 2
  else 0

/-- `contact_height` (lines 1066-1074). -/
def svg_contact_height (card : ProfileCard) : Nat :=
  if card.show_contact ∧ card.contacts ≠ [] then
    let num_contacts := min card.contacts.length 6
    let cols := min 2 num_contacts
    let rows := (num_contacts + cols - 1) / cols
    28 + 24 + (rows * 80 + (rows - 1) * 16) + 32 * 2
  else 0

/-- The SVG preamble through the banner texts (lines 1088-1130). -/
def svg_header (height : Nat) (primary secondary name title tagline : String) : String :=
  "<svg xmlns=\"http://www.w3.org/2000/svg\" width=\"900\" height=\"" ++ toString height ++
    "\" viewBox=\"0 0 900 " ++ toString height ++
    "\" role=\"img\" aria-labelledby=\"title desc\">\n  <defs>\n    <linearGradient id=\"bannerGradient\" x1=\"0%\" y1=\"0%\" x2=\"100%\" y2=\"100%\">\n      <stop offset=\"0%\" stop-color=\"" ++
    primary ++ "\" />\n      <stop offset=\"100%\" stop-color=\"" ++ secondary ++
    "\" />\n    </linearGradient>\n    <linearGradient id=\"statsGradient\" x1=\"0%\" y1=\"0%\" x2=\"100%\" y2=\"100%\">\n      <stop offset=\"0%\" stop-color=\"" ++
    primary ++ "\" />\n      <stop offset=\"100%\" stop-color=\"" ++ secondary ++
    "\" />\n    </linearGradient>\n    <filter id=\"cardShadow\" x=\"-5%\" y=\"-5%\" width=\"110%\" height=\"110%\">\n      <feDropShadow dx=\"0\" dy=\"4\" stdDeviation=\"8\" flood-color=\"rgba(0,0,0,0.15)\" />\n    </filter>\n    <filter id=\"smallShadow\" x=\"-10%\" y=\"-10%\" width=\"120%\" height=\"120%\">\n      <feDropShadow dx=\"0\" dy=\"2\" stdDeviation=\"4\" flood-color=\"rgba(0,0,0,0.1)\" />\n    </filter>\n  </defs>\n  <title id=\"title\">GitCard - " ++
    name ++
    "</title>\n  <desc id=\"desc\">GitHub 프로필 카드</desc>\n\n  <!-- Card background -->\n  <rect x=\"0\" y=\"0\" width=\"900\" height=\"" ++
    toString height ++
    "\" rx=\"16\" ry=\"16\" fill=\"#ffffff\" filter=\"url(#cardShadow)\" />\n\n  <!-- Banner -->\n  <rect x=\"0\" y=\"0\" width=\"900\" height=\"180\" rx=\"16\" ry=\"16\" fill=\"url(#bannerGradient)\" />\n\n  <!-- Name -->\n  <text x=\"" ++
    halfStr 900 ++
    "\" y=\"80\" text-anchor=\"middle\" fill=\"#ffffff\" font-size=\"42\" font-weight=\"700\" " ++
    svgFontFamily ++ ">\n    Hello World 👋 I'm " ++ name ++
    "!\n  </text>\n\n  <!-- Title -->\n  <text x=\"" ++ halfStr 900 ++
    "\" y=\"130\" text-anchor=\"middle\" fill=\"#ffffff\" font-size=\"24\" font-weight=\"500\" " ++
    svgFontFamily ++ " opacity=\"0.95\">\n    " ++ title ++ "\n  </text>\n" ++
    (if tagline ≠ "" then
      "  <!-- Tagline -->\n  <text x=\"" ++ halfStr 900 ++
        "\" y=\"160\" text-anchor=\"middle\" fill=\"#ffffff\" font-size=\"18\" font-weight=\"400\" " ++
        svgFontFamily ++ " opacity=\"0.85\">\n    " ++ tagline ++ "\n  </text>\n"
     else "")

/-- One placed badge of the SVG stacks section (lines 1175-1179).  The
badge text is emitted with the constant `fill="#ffffff"` of the source,
whatever the badge background color. -/
def svg_badge_group (p : BadgePlace) : String :=
  "  <g>\n    <rect x=\"" ++ toString p.x ++ "\" y=\"" ++ toString p.y ++
    "\" rx=\"20\" ry=\"20\" width=\"" ++ toString p.w ++
    "\" height=\"28\" fill=\"" ++ p.color ++
    "\" filter=\"url(#smallShadow)\" />\n    <text x=\"" ++
    halfStr (2 * p.x + p.w) ++ "\" y=\"" ++ halfStr (2 * (p.y + 18)) ++
    "\" text-anchor=\"middle\" fill=\"#ffffff\" font-size=\"14\" font-weight=\"600\" " ++
    svgFontFamily ++ ">" ++ p.label ++ "</text>\n  </g>\n"

/-- One category of the SVG stacks section (lines 1143-1182): header,
placed badges, and the baseline for the next category (last badge row
plus badge height plus the 24px inter-category gap). -/
def svg_category_block (category : String) (badges : List (String × String))
    (y0 : Nat) : String × Nat :=
  let category_escaped := pyHtmlEscape (pyUpper category)
  let head := "  <!-- Category: " ++ category ++ " -->\n  <text x=\"40\" y=\"" ++
    toString y0 ++ "\" fill=\"#666666\" font-size=\"18\" font-weight=\"600\" " ++
    svgFontFamily ++ " letter-spacing=\"0.5\">\n    " ++ category_escaped ++ "\n  </text>\n"
  let y1 := y0 + 18 + 12
  let places := placeBadges y1 (badges.take 20)
  let lastY := match places.getLast? with | some p => p.y | none => y1
  (head ++ String.join (places.map svg_badge_group), lastY + 28 + 24)

/-- The SVG stacks section (lines 1135-1184): returns the markup and the
updated `current_y`. -/
def svg_stacks_render (groups : List (String × List (String × String)))
    (y0 : Nat) : String × Nat :=
  if groups ≠ [] then
    let head := "  <!-- Stacks Section -->\n  <text x=\"40\" y=\"" ++ toString y0 ++
      "\" fill=\"#333333\" font-size=\"28\" font-weight=\"700\" " ++ svgFontFamily ++
      ">\n    Stacks\n  </text>\n"
    let folded := groups.foldl
      (fun (acc : String × Nat) g =>
        let block := svg_category_block g.1 g.2 acc.2
        (acc.1 ++ block.1, block.2))
      ("", y0 + 28 + 24)
    (head ++ folded.1, folded.2 + 32 - 24)
  else ("", y0)

/-- One contact card of the SVG contact section (lines 1215-1223). -/
def svg_contact_chunk (cx cy : Nat) (display_label value : String) : String :=
  "  <!-- Contact Card -->\n  <rect x=\"" ++ toString cx ++ "\" y=\"" ++ toString cy ++
    "\" width=\"402\" height=\"80\" rx=\"12\" ry=\"12\" fill=\"#ffffff\" filter=\"url(#smallShadow)\" />\n  <text x=\"" ++
    toString (cx + 20) ++ "\" y=\"" ++ toString (cy + 24) ++
    "\" fill=\"#667eea\" font-size=\"14\" font-weight=\"600\" " ++ svgFontFamily ++
    " letter-spacing=\"0.5\">\n    " ++ display_label ++ "\n  </text>\n  <text x=\"" ++
    toString (cx + 20) ++ "\" y=\"" ++ toString (cy + 48) ++
    "\" fill=\"#333333\" font-size=\"16\" font-weight=\"400\" " ++ svgFontFamily ++
    ">\n    " ++ String.mk (value.toList.take 40) ++
    (if 40 < value.length then "..." else "") ++ "\n  </text>\n"

/-- The enumerated contact loop of the SVG contact section (lines
1201-1224): two cards per row; the x cursor advances only when a card is
actually emitted (empty values emit nothing), exactly as in the source. -/
def svg_contacts_fold : List (Nat × ContactEntry) → Nat → Nat → String
  | [], _, _ => ""
  | (i, contact) :: rest, cx0, cy0 =>
    let cx := if 0 < i ∧ i % 2 = 0 then 40 else cx0
    let cy := if 0 < i ∧ i % 2 = 0 then cy0 + 80 + 16 else cy0
    let label := pyHtmlEscape (contact.label.getD "")
    let value := pyHtmlEscape (contact.value.getD "")
    let contact_type := contact.ctype.getD ""
    if value ≠ "" then
      svg_contact_chunk cx cy (contact_display_label label contact_type) value ++
        svg_contacts_fold rest (cx + 402 + 16) cy
    else svg_contacts_fold rest cx cy

/-- The SVG contact section (lines 1187-1226): returns the markup and
the updated `current_y`. -/
def svg_contacts_section (card : ProfileCard) (y0 : Nat) : String × Nat :=
  if card.show_contact ∧ card.contacts ≠ [] then
    let ch := svg_contact_height card
    let head := "  <!-- 연락처 섹션 배경 -->\n  <rect x=\"0\" y=\"" ++ toString y0 ++
      "\" width=\"900\" height=\"" ++ toString (ch - 32 * 2) ++
      "\" fill=\"#f8f9fa\" />\n  <text x=\"40\" y=\"" ++ toString (y0 + 32) ++
      "\" fill=\"#333333\" font-size=\"28\" font-weight=\"700\" " ++ svgFontFamily ++
      ">\n    Contact\n  </text>\n"
    let start := y0 + 32 + 28 + 24
    (head ++ svg_contacts_fold (card.contacts.take 6).enum 40 start, y0 + ch)
  else ("", y0)

/-- One statistics box of the SVG statistics section (lines 1255-1269). -/
def svg_stat_box (i : Nat) (label : String) (value : Nat) (startY : Nat) : String :=
  let x := 40 + (i % 2) * (400 + 20)
  let y := startY + (i / 2) * (100 + 20)
  "  <!-- Stat Box: " ++ label ++ " -->\n  <g>\n    <rect x=\"" ++ toString x ++
    "\" y=\"" ++ toString y ++
    "\" width=\"400\" height=\"100\" rx=\"12\" ry=\"12\" fill=\"url(#statsGradient)\" filter=\"url(#smallShadow)\" />\n    <text x=\"" ++
    halfStr (2 * x + 400) ++ "\" y=\"" ++ toString (y + 40) ++
    "\" text-anchor=\"middle\" fill=\"#ffffff\" font-size=\"36\" font-weight=\"700\" " ++
    svgFontFamily ++ ">" ++ toString value ++ "</text>\n    <text x=\"" ++
    halfStr (2 * x + 400) ++ "\" y=\"" ++ toString (y + 70) ++
    "\" text-anchor=\"middle\" fill=\"#ffffff\" font-size=\"14\" font-weight=\"500\" " ++
    svgFontFamily ++ " opacity=\"0.9\" letter-spacing=\"0.5\">\n      " ++ label ++
    "\n    </text>\n  </g>\n"

/-- The SVG statistics section (lines 1229-1269): header always when the
flag is on; boxes only when a snapshot is present (`none` models a
missing or empty dictionary, falsy for the source's `if stats:`). -/
def svg_stats_section (card : ProfileCard) (stats : Option StatsSnapshot)
    (y0 : Nat) : String :=
  if card.show_github_stats then
    let head := "  <!-- GitHub 통계 섹션 -->\n  <text x=\"40\" y=\"" ++
      toString (y0 + 32) ++ "\" fill=\"#333333\" font-size=\"28\" font-weight=\"700\" " ++
      svgFontFamily ++ ">\n    Github-stats\n  </text>\n"
    match stats with
    | some st =>
      let startY := y0 + 32 + 28 + 24
      head ++
        svg_stat_box 0 "REPOSITORIES" (st.repositories.getD 0) startY ++
        svg_stat_box 1 "STARS" (st.stars.getD 0) startY ++
        svg_stat_box 2 "FOLLOWERS" (st.followers.getD 0) startY ++
        svg_stat_box 3 "FOLLOWING" (st.following.getD 0) startY
    | none => head
  else ""

/-- Embedding of `generate_svg` (lines 1004-1272).  `env` is the ambient
nondeterminism environment, never consulted (see `RenderEnv`);
`github_login` is a parameter of the source function that its body does
not use. -/
def generate_svg (env : RenderEnv) (card : ProfileCard) (github_login : String)
    (stats : Option StatsSnapshot) : String :=
  let pr := extract_gradient_colors card.gradient card.primary_color
  let name := pyHtmlEscape card.name
  let title := pyHtmlEscape card.title
  let tagline := pyHtmlEscape (card.tagline.getD "")
  let groups := svg_groups card pr.1
  let stacks_height := svg_stacks_height groups
  let contact_height := svg_contact_height card
  let stats_height := if card.show_github_stats then 28 + 24 + (2 * 100 + 20) + 32 * 2 else 0
  let height := max 600 (180 + stacks_height + contact_height + stats_height)
  let stacksPart := svg_stacks_render groups (180 + 32)
  let contactPart := svg_contacts_section card stacksPart.2
  svg_header height pr.1 pr.2 name title tagline ++
    stacksPart.1 ++ contactPart.1 ++
    svg_stats_section card stats contactPart.2 ++ "\n</svg>"

/-! ## Snippet renderers (`generate_svg_markdown`, lines 1288-1302, and
`generate_readme_template`, lines 1598-1889) -/

/-- Split a character list at the first occurrence of `sep`, dropping
the separator. -/
def splitAtSub (sep : List Char) : List Char → Option (List Char × List Char)
  | [] => if sep.isEmpty then some ([], []) else none
  | c :: rest =>
    if sep.isPrefixOf (c :: rest) then some ([], List.drop sep.length (c :: rest))
    else
      match splitAtSub sep rest with
      | some (a, b) => some (c :: a, b)
      | none => none

/-- Embedding of `_remove_port_from_url` (lines 1275-1285) for the
absolute `scheme://host[:port]/...` URLs the exporters build: drop
everything from the first `:` of the authority component.  (The source
goes through `urllib.parse.urlparse`/`urlunparse`; on such URLs that
round trip does exactly this.) -/
def remove_port_from_url (url : String) : String :=
  match splitAtSub "://".toList url.toList with
  | some (scheme, rest) =>
    let netloc := rest.takeWhile (fun c => c ≠ '/' ∧ c ≠ '?' ∧ c ≠ '#')
    let tail := rest.drop netloc.length
    let host := if netloc.contains ':' then netloc.takeWhile (fun c => c ≠ ':') else netloc
    String.mk (scheme ++ "://".toList ++ host ++ tail)
  | none => url

/-- Embedding of `generate_svg_markdown` (lines 1288-1302): a Markdown
image reference to the card's PNG endpoint, linked to the public card
page.  `env` is the ambient nondeterminism environment, never
consulted. -/
def generate_svg_markdown (env : RenderEnv) (st : Settings) (card : ProfileCard)
    (github_login : String) : String :=
  let image_url := remove_port_from_url
    (st.api_base_url ++ "/api/profiles/public/" ++ github_login ++ "/cards/" ++
      toString card.id ++ "/image?format=png")
  let card_url := remove_port_from_url
    (st.frontend_base_url ++ "/dashboard/" ++ github_login ++ "/cards/" ++
      toString card.id)
  "[![GitCard](" ++ image_url ++ ")](" ++ card_url ++ ")"

/-- `escape_shields_io` (lines 1818-1820): `-` to `--`, `_` to `__`,
space to `_`, in that order. -/
def escape_shields_io (text : String) : String :=
  pyReplace (pyReplace (pyReplace text "-" "--") "_" "__") " " "_"

/-- The label escape of the README stack badges (line 1752): `-` to
`--`, `_` to `__`, space to `%20`, in that order. -/
def escape_stack_label (text : String) : String :=
  pyReplace (pyReplace (pyReplace text "-" "--") "_" "__") " " "%20"

/-- One stack badge of the README stacks section (loop body, lines
1714-1768), over the collected `(label, color, key)` dictionary.  Unlike
`generate_html`, the key resolution here sees the raw label and there is
no `java`-to-`OpenJDK` relabel. -/
def readme_stack_badge (item : String × String × String) : String :=
  let stack_label := item.1
  let stack_color := item.2.1
  let stack_key := resolve_stack_key item.2.2 stack_label
  let icon_slug := stack_icon_slug stack_key
  let color_code := pyReplace stack_color "#" ""
  let stack_label_escaped := escape_stack_label stack_label
  match icon_slug with
  | some slug =>
    "  <img src=\"https://img.shields.io/badge/" ++ stack_label_escaped ++ "-" ++
      color_code ++ "?logo=" ++ slug ++ "&logoColor=" ++ badge_icon_color stack_color ++
      "&style=for-the-badge\" alt=\"" ++ stack_label ++ "\" />\n"
  | none =>
    "  <img src=\"https://img.shields.io/badge/" ++ stack_label_escaped ++ "-" ++
      color_code ++ "?style=for-the-badge\" alt=\"" ++ stack_label ++ "\" />\n"

/-- The `(label, color, key)` triples of one README category
(lines 1682-1698): stacks whose normalized category matches, with
non-empty label `stack.get('label') or stack.get('key', '')`, color
`stack.get('color', '#667eea')` and key `stack.get('key', '')`. -/
def readme_stacks_for (card : ProfileCard) (category : String) :
    List (String × String × String) :=
  (card.stackList.filter (fun s => normalize_category s.category = category)).filterMap
    (fun s =>
      let label := pyOrStr s.label (s.key.getD "")
      if label ≠ "" then some (label, s.color.getD "#667eea", s.key.getD "") else none)

/-- One category block of the README stacks section (lines 1701-1770). -/
def readme_category_block (card : ProfileCard) (category : String) : String :=
  let items := readme_stacks_for card category
  if items ≠ [] then
    let category_labels :=
      if pick_stack_label_lang card.stack_label_lang = "ko" then category_labels_ko
      else category_labels_en
    let category_label := (category_labels.lookup category).getD (pyUpper category)
    let align_value := pyOrStr card.stack_alignment "center"
    "### " ++ category_label ++ "\n\n<div align=\"" ++ align_value ++ "\">\n\n" ++
      String.join ((items.take 20).map readme_stack_badge) ++ "\n</div>\n\n"
  else ""

/-- The README stacks section (lines 1640-1770). -/
def readme_stacks_section (card : ProfileCard) : String :=
  if card.show_stacks ∧ card.stackList ≠ [] then
    "## 🛠️ Tech Stacks\n\n" ++ String.join (category_order.map (readme_category_block card))
  else ""

/-- Link-target inference of the README contact badges (lines
1788-1799): unlike `generate_html`, the URL test comes first, and the
last branch keeps a value that starts with `http` unchanged. -/
def readme_contact_link (value : String) : String × String × String :=
  if pyStartsWith value "http://" || pyStartsWith value "https://" then
    (value, "target=\"_blank\"", "rel=\"noopener noreferrer\"")
  else if pyContains value '@' && !(pyStartsWith value "http") then
    ("mailto:" ++ value, "", "")
  else
    ((if !(pyStartsWith value "http") then "https://" ++ value else value),
      "target=\"_blank\"", "rel=\"noopener noreferrer\"")

/-- One contact badge of the README contact section (loop body, lines
1777-1837).  The raw label and value are interpolated into the `title`
and `alt` attributes without entity escaping — the behavior claim C7 is
about. -/
def readme_contact_entry (contact : ContactEntry) : String :=
  let label := contact.label.getD ""
  let value := contact.value.getD ""
  let contact_type := contact.ctype.getD ""
  if value ≠ "" then
    let icon_slug := contact_icon_slug contact_type
    let link := readme_contact_link value
    let display_label := contact_display_label label contact_type
    let attrs := link_attrs link.1 link.2.1 link.2.2
    let escaped_label := escape_shields_io display_label
    let badge_url :=
      match icon_slug with
      | some slug =>
        "https://img.shields.io/badge/" ++ escaped_label ++ "-0077B5?logo=" ++ slug ++
          "&logoColor=white&style=flat"
      | none => "https://img.shields.io/badge/" ++ escaped_label ++ "-0077B5?style=flat"
    "  <a " ++ attrs ++ " title=\"" ++ value ++ "\">\n    <img src=\"" ++ badge_url ++
      "\" alt=\"" ++ display_label ++ ": " ++ value ++ "\" />\n  </a>\n"
  else ""

/-- The README contact section (lines 1773-1839). -/
def readme_contacts_section (card : ProfileCard) : String :=
  if card.show_contact ∧ card.contacts ≠ [] then
    "## 📬 Contact\n\n<div align=\"center\">\n\n" ++
      String.join ((card.contacts.take 6).map readme_contact_entry) ++ "\n</div>\n\n"
  else ""

/-- The README Baekjoon section (lines 1842-1848); the handle is
interpolated raw. -/
def readme_baekjoon_section (card : ProfileCard) : String :=
  if card.show_baekjoon ∧ pyTruthy card.baekjoon_id then
    let handle := card.baekjoon_id.getD ""
    "## 🧩 Baekjoon Tier\n\n<div align=\"center\">\n\n[![Solved.ac Profile](http://mazassumnida.wtf/api/v2/generate_badge?boj=" ++
      handle ++ ")](https://solved.ac/" ++ handle ++ "/)\n\n</div>\n\n"
  else ""

/-- One repository reference of the README repositories section (loop
body, lines 1856-1867). -/
def readme_repo_entry (st : Settings) (card : ProfileCard) (github_login : String)
    (iv : Nat × RepoEntry) : String :=
  let repo_url := pyHtmlEscape (iv.2.html_url.getD "")
  let repo_name := pyHtmlEscape (iv.2.name.getD "")
  let banner_url := remove_port_from_url
    (st.api_base_url ++ "/profiles/public/" ++ github_login ++ "/cards/" ++
      toString card.id ++ "/repositories/" ++ toString iv.1 ++ "/banner")
  "<a href=\"" ++ repo_url ++ "\" target=\"_blank\" rel=\"noopener noreferrer\">\n  <img src=\"" ++
    banner_url ++ "\" alt=\"" ++ repo_name ++ "\" />\n</a>\n\n"

/-- The README repositories section (lines 1851-1869). -/
def readme_repos_section (st : Settings) (card : ProfileCard) (github_login : String) : String :=
  if card.repositories ≠ [] then
    "## 📂 Repositories\n\n<div align=\"left\">\n\n" ++
      String.join (card.repositories.enum.map (readme_repo_entry st card github_login)) ++
      "</div>\n\n"
  else ""

/-- The README statistics section (lines 1872-1880): external
github-readme-stats images. -/
def readme_stats_section (card : ProfileCard) (github_login : String) : String :=
  if card.show_github_stats then
    "## 🏅 GitHub Stats\n\n<div align=\"center\">\n\n  <img src=\"https://github-readme-stats.vercel.app/api?username=" ++
      github_login ++ "&show_icons=true&theme=default\" alt=\"" ++ github_login ++
      " stats\" />\n  <img src=\"https://github-readme-stats.vercel.app/api/top-langs/?username=" ++
      github_login ++ "&layout=compact&theme=default\" alt=\"Top Languages\" />\n\n</div>\n\n"
  else ""

/-- Embedding of `generate_readme_template` (lines 1598-1889).  The
`stats` argument of the source function is never read by its body.
`env` is the ambient nondeterminism environment, never consulted. -/
def generate_readme_template (env : RenderEnv) (st : Settings) (card : ProfileCard)
    (github_login : String) (stats : Option StatsSnapshot) : String :=
  let banner_url := remove_port_from_url
    (st.api_base_url ++ "/profiles/public/" ++ github_login ++ "/cards/" ++
      toString card.id ++ "/banner")
  "<div align=\"center\">\n  <img src=\"" ++ banner_url ++
    "\" alt=\"GitCard Banner\" />\n</div>\n\n" ++
    readme_stacks_section card ++
    readme_contacts_section card ++
    readme_baekjoon_section card ++
    readme_repos_section st card github_login ++
    readme_stats_section card github_login ++
    "---\n<div align=\"center\">\n  <p>Made with ❤️ using <a href=\"https://www.gitcard.kr\">GitCard</a></p>\n</div>\n"

/-! ## Concrete sample inputs (used by witness and counterexample
theorems) -/

/-- A sample ambient environment. -/
def sampleEnv : RenderEnv := { now := 0, rand := 0 }

/-- Sample configuration. -/
def sampleSettings : Settings :=
  { api_base_url := "http://localhost:8000", frontend_base_url := "https://www.gitcard.kr" }

/-- A well-formed stack entry. -/
def sampleStack : StackEntry :=
  { key := some "react", label := some "React", category := some "frontend",
    color := some "#61dafb" }

/-- A stack entry with a category outside the known ten. -/
def mysteryStack : StackEntry :=
  { key := none, label := some "X", category := some "Mystery", color := none }

/-- A card with non-empty stacks but `show_stacks = false`. -/
def sampleHiddenStacksCard : ProfileCard :=
  { id := 7, name := "Ada", title := "Engineer", tagline := some "hello",
    primary_color := none, gradient := none,
    show_stacks := false, show_contact := true, show_github_stats := true,
    show_baekjoon := false, baekjoon_id := none,
    stack_label_lang := some "en", stack_alignment := some "center",
    stackList := [sampleStack, mysteryStack],
    contacts := [{ ctype := some "mail", label := some "Email", value := some "a@b.c" }],
    repositories := [] }

/-- A card whose only stack has the unknown category `"Mystery"`. -/
def sampleMysteryCard : ProfileCard :=
  { sampleHiddenStacksCard with show_stacks := true, stackList := [mysteryStack] }

/-- The four labels of claim C10's failing input: lengths 22, 22, 22, 16,
giving badge widths 200, 200, 200, 152. -/
def c10_labels : List String :=
  ["aaaaaaaaaaaaaaaaaaaaaa", "aaaaaaaaaaaaaaaaaaaaaa", "aaaaaaaaaaaaaaaaaaaaaa",
   "aaaaaaaaaaaaaaaa"]

/-- The C10 labels paired with a badge color, as the placement loop
consumes them. -/
def c10_badges : List (String × String) := c10_labels.map (fun l => (l, "#667eea"))

/-! ## Supporting lemmas -/

/-- `format(n, "02x")` of a channel value in `0..255` is two hex digits. -/
theorem pad2hex_spec : ∀ n : Nat, n < 256 →
    (pad2hex n).length = 2 ∧ (pad2hex n).all isHexDigitChar = true := by decide

/-- Converting a valid scanned token yields `#` plus six hex digits. -/
theorem validb_toHex (t : ColorTok) (h : t.validb = true) : isHex6 t.toHex = true := by
  cases t with
  | hex6 ds =>
    simp only [ColorTok.validb, Bool.and_eq_true, beq_iff_eq] at h
    simpa [isHex6, ColorTok.toHex, ColorTok.toHexList, isHex6List] using h
  | hex3 a b c =>
    simp only [ColorTok.validb, Bool.and_eq_true] at h
    simp [isHex6, ColorTok.toHex, ColorTok.toHexList, isHex6List, h.1.1, h.1.2, h.2]
  | rgb r g b =>
    simp only [ColorTok.validb, Bool.and_eq_true, decide_eq_true_eq] at h
    obtain ⟨⟨hr, hg⟩, hb⟩ := h
    obtain ⟨hrl, hra⟩ := pad2hex_spec r (by omega)
    obtain ⟨hgl, hga⟩ := pad2hex_spec g (by omega)
    obtain ⟨hbl, hba⟩ := pad2hex_spec b (by omega)
    simp [isHex6, ColorTok.toHex, ColorTok.toHexList, isHex6List, List.all_append,
      List.length_append, hrl, hgl, hbl, hra, hga, hba]

/-- If the combined scan finds nothing, neither fallback scan finds
anything (the combined matcher succeeds wherever either sub-matcher
does). -/
theorem scan_sub_nil : ∀ (fuel : Nat) (l : List Char),
    scanColorsAux fuel matchColorAt l = [] →
    scanColorsAux fuel matchHexAt l = [] ∧ scanColorsAux fuel matchRgbAt l = [] := by
  intro fuel
  induction fuel with
  | zero => intro l _; exact ⟨rfl, rfl⟩
  | succ n ih =>
    intro l h
    cases l with
    | nil => exact ⟨rfl, rfl⟩
    | cons c rest =>
      cases hm : matchColorAt (c :: rest) with
      | some pr =>
        obtain ⟨t, rest2⟩ := pr
        simp only [scanColorsAux, hm] at h
        exact absurd h (List.cons_ne_nil _ _)
      | none =>
        have hhex : matchHexAt (c :: rest) = none := by
          unfold matchColorAt at hm
          cases hh : matchHexAt (c :: rest) with
          | some r => rw [hh] at hm; exact absurd hm (by simp)
          | none => rfl
        have hrgb : matchRgbAt (c :: rest) = none := by
          unfold matchColorAt at hm
          rw [hhex] at hm
          exact hm
        simp only [scanColorsAux, hm] at h
        obtain ⟨h1, h2⟩ := ih rest h
        exact ⟨by simp only [scanColorsAux, hhex]; exact h1,
               by simp only [scanColorsAux, hrgb]; exact h2⟩

/-- `scan_sub_nil` at the fuel used by `extract_gradient_colors`. -/
theorem findAll_sub_nil (l : List Char) (h : findAllColors l = []) :
    findAllHex l = [] ∧ findAllRgb l = [] :=
  scan_sub_nil l.length l h

/-- A non-empty combined scan needs a non-empty input. -/
theorem findAllColors_nil : findAllColors [] = [] := rfl

/-- Badge widths never exceed 200. -/
theorem badge_width_le (label : String) : badge_width label ≤ 200 :=
  max_le (by norm_num) (min_le_left _ _)

/-- Badge widths are at least 60. -/
theorem badge_width_ge (label : String) : 60 ≤ badge_width label := le_max_left _ _

/-- Every badge placed by the placement loop keeps the clamp width
formula and stays inside `[40, 820]`, for any cursor at or right of the
row start. -/
theorem placeBadgesAux_mem : ∀ (items : List (String × String)) (bx y0 : Nat),
    40 ≤ bx → ∀ p ∈ placeBadgesAux bx y0 items,
      p.w = badge_width p.label ∧ 40 ≤ p.x ∧ p.x + p.w ≤ 820 := by
  intro items
  induction items with
  | nil => intro bx y0 _ p hp; simp [placeBadgesAux] at hp
  | cons it rest ih =>
    intro bx y0 hbx p hp
    obtain ⟨lab, col⟩ := it
    by_cases hw : 820 < bx + badge_width lab
    · simp only [placeBadgesAux, if_pos hw] at hp
      rcases List.mem_cons.1 hp with rfl | hp'
      · refine ⟨rfl, le_refl 40, ?_⟩
        show 40 + badge_width lab ≤ 820
        have := badge_width_le lab
        omega
      · exact ih _ _ (by omega) p hp'
    · simp only [placeBadgesAux, if_neg hw] at hp
      rcases List.mem_cons.1 hp with rfl | hp'
      · refine ⟨rfl, hbx, ?_⟩
        show bx + badge_width lab ≤ 820
        omega
      · exact ih _ _ (by omega) p hp'

/-- Shape of the placement loop on a non-empty list: the head badge and
the cursor state for the remaining badges. -/
theorem placeBadgesAux_cons_shape (lab col : String) (rest : List (String × String))
    (bx y0 : Nat) :
    ∃ p : BadgePlace,
      placeBadgesAux bx y0 ((lab, col) :: rest) =
        p :: placeBadgesAux (p.x + p.w + 12) p.y rest ∧
      p.w = badge_width lab ∧
      ((820 < bx + badge_width lab ∧ p.x = 40 ∧ p.y = y0 + 38) ∨
       (¬820 < bx + badge_width lab ∧ p.x = bx ∧ p.y = y0)) := by
  by_cases hw : 820 < bx + badge_width lab
  · refine ⟨{ x := 40, y := y0 + 38, w := badge_width lab, label := lab, color := col },
      ?_, rfl, Or.inl ⟨hw, rfl, rfl⟩⟩
    simp [placeBadgesAux, if_pos hw]
  · refine ⟨{ x := bx, y := y0, w := badge_width lab, label := lab, color := col },
      ?_, rfl, Or.inr ⟨hw, rfl, rfl⟩⟩
    simp [placeBadgesAux, if_neg hw]

/-- Consecutive placed badges follow the 12px-gap/wrap step relation. -/
theorem placeBadgesAux_chain : ∀ (items : List (String × String)) (bx y0 : Nat),
    List.Chain' badgeStep (placeBadgesAux bx y0 items) := by
  intro items
  induction items with
  | nil => intro bx y0; simp [placeBadgesAux]
  | cons it rest ih =>
    intro bx y0
    obtain ⟨lab, col⟩ := it
    obtain ⟨p, heq, hw, _⟩ := placeBadgesAux_cons_shape lab col rest bx y0
    rw [heq]
    cases rest with
    | nil => simp [placeBadgesAux]
    | cons it2 rest2 =>
      obtain ⟨lab2, col2⟩ := it2
      obtain ⟨q, heq2, hw2, hcase2⟩ :=
        placeBadgesAux_cons_shape lab2 col2 rest2 (p.x + p.w + 12) p.y
      rw [heq2]
      refine List.chain'_cons.2 ⟨?_, ?_⟩
      · unfold badgeStep
        rcases hcase2 with ⟨h1, h2, h3⟩ | ⟨h1, h2, h3⟩
        · rw [if_pos (by rw [hw2]; omega)]
          exact ⟨h2, h3⟩
        · rw [if_neg (by rw [hw2]; omega)]
          exact ⟨h2, h3⟩
      · rw [← heq2]
        exact ih _ _

/-! ## Claim theorems -/

/-- C1: for every gradient string on which the color scan finds at least
two valid color tokens (3/6-digit hex or `rgb(r,g,b)`, in any mix and
order), `_extract_gradient_colors` returns the first two scanned colors,
each normalized to 6-digit hex, as `(primary, secondary)` in scan order;
when the two coincide the secondary falls back to `"#764ba2"`. -/
theorem claim_C1 : ∀ (g : String) (p : Option String) (t0 t1 : ColorTok)
    (rest : List ColorTok),
    findAllColors (pyStripList g.toList) = t0 :: t1 :: rest →
    t0.validb = true → t1.validb = true →
    extract_gradient_colors (some g) p =
      (t0.toHex, if t0.toHex = t1.toHex then "#764ba2" else t1.toHex) ∧
    isHex6 t0.toHex = true ∧ isHex6 t1.toHex = true := by
  intro g p t0 t1 rest hscan hv0 hv1
  have hne : pyStripList g.toList ≠ [] := by
    intro h0
    rw [h0] at hscan
    exact absurd hscan.symm (List.cons_ne_nil _ _)
  have hg1 : g ≠ "" := by
    intro h0
    apply hne
    rw [h0]
    rfl
  have hg2 : pyStrip g ≠ "" := by
    intro h0
    apply hne
    have h1 := congrArg String.toList h0
    simpa [pyStrip] using h1
  refine ⟨?_, validb_toHex t0 hv0, validb_toHex t1 hv1⟩
  have hscan2 : findAllColors (pyStripList g.data) = t0 :: t1 :: rest := hscan
  simp only [extract_gradient_colors, Option.getD_some]
  rw [if_neg (not_or.mpr ⟨hg1, hg2⟩)]
  simp [hscan, hscan2]

/-- C1 witness: the spec's own example gradient. -/
theorem claim_C1_witness :
    extract_gradient_colors
        (some "linear-gradient(135deg, #667eea 0%, rgb(118,75,162) 100%)") none =
      ("#667eea", "#764ba2") ∧
    isHex6 "#667eea" = true ∧ isHex6 "#764ba2" = true := by
  have h := claim_C1 "linear-gradient(135deg, #667eea 0%, rgb(118,75,162) 100%)" none
    (ColorTok.hex6 ['6', '6', '7', 'e', 'e', 'a']) (ColorTok.rgb 118 75 162) []
    (by decide) (by decide) (by decide)
  refine ⟨h.1.trans (by decide), by decide, by decide⟩

/-- C2 counterexample: for `rgb()` channels above 255 the conversion
`format(_, "02x")` emits more than two digits, so the extraction returns
a value that is not a 6-digit hex color — the claim's universal shape
guarantee fails. -/
theorem claim_C2_counterexample :
    (extract_gradient_colors (some "rgb(999,0,0),rgb(1,2,3)") none).1 = "#3e70000" ∧
    isHex6 (extract_gradient_colors (some "rgb(999,0,0),rgb(1,2,3)") none).1 = false := by
  constructor
  · decide
  · decide

/-- C2 (amended): the extraction is a total function (it never raises),
and it returns two valid 6-digit hex colors for every gradient input —
including empty, absent and garbage strings — provided every scanned
`rgb()` token keeps its channels at most 255 and the primary-color
fallback value is itself a valid 6-digit hex.  (Channels above 255
falsify the original claim, see `claim_C2_counterexample`.) -/
theorem claim_C2_amended : ∀ (gradient primary_color : Option String),
    (∀ t ∈ findAllColors (pyStripList (gradient.getD "").toList), t.validb = true) →
    isHex6 (pyOrStr primary_color "#667eea") = true →
    isHex6 (extract_gradient_colors gradient primary_color).1 = true ∧
    isHex6 (extract_gradient_colors gradient primary_color).2 = true := by
  intro gradient primary_color hvalid hp
  simp only [extract_gradient_colors]
  by_cases hcond : gradient.getD "" = "" ∨ pyStrip (gradient.getD "") = ""
  · rw [if_pos hcond]
    exact ⟨hp, by show isHex6 "#764ba2" = true; decide⟩
  · rw [if_neg hcond]
    cases hscan : findAllColors (pyStripList (gradient.getD "").toList) with
    | nil =>
      obtain ⟨hh, hr⟩ := findAll_sub_nil _ hscan
      simp only [hscan, List.map_nil, hh, hr]
      exact ⟨hp, by show isHex6 "#764ba2" = true; decide⟩
    | cons t0 crest =>
      have hv0 : t0.validb = true := hvalid t0 (hscan ▸ List.mem_cons_self _ _)
      cases crest with
      | nil =>
        simp only [hscan, List.map_cons, List.map_nil]
        constructor
        · exact validb_toHex t0 hv0
        · by_cases heq : t0.toHex = "#764ba2" <;> simp [heq] <;> decide
      | cons t1 crest2 =>
        have hv1 : t1.validb = true :=
          hvalid t1 (hscan ▸ List.mem_cons_of_mem _ (List.mem_cons_self _ _))
        simp only [hscan, List.map_cons]
        constructor
        · exact validb_toHex t0 hv0
        · by_cases heq : t0.toHex = t1.toHex
          · simp only [if_pos heq]
            decide
          · simp only [if_neg heq]
            exact validb_toHex t1 hv1

/-- C2 witness: a mixed garbage-and-colors gradient with in-range
channels and an absent primary color. -/
theorem claim_C2_witness :
    isHex6 (extract_gradient_colors (some "to right, #AbC junk rgb( 0 , 12, 255)x") none).1 = true ∧
    isHex6 (extract_gradient_colors (some "to right, #AbC junk rgb( 0 , 12, 255)x") none).2 = true :=
  claim_C2_amended (some "to right, #AbC junk rgb( 0 , 12, 255)x") none
    (by decide) (by decide)

/-- C3: the placement loop of `generate_svg` gives every badge the width
`clamp(60, 200, textLength*8 + 24)`, keeps every badge inside the usable
row (from the 40px row start to the 820px limit, i.e. canvas width 900
minus the side margins), and consecutive badges either continue the row
12px apart or start a new row exactly when the next badge would pass the
limit (`badgeStep`). -/
theorem claim_C3 : ∀ (items : List (String × String)) (startY : Nat),
    (∀ p ∈ placeBadges startY items,
      p.w = max 60 (min 200 (p.label.length * 8 + 24)) ∧
      40 ≤ p.x ∧ p.x + p.w ≤ 820) ∧
    List.Chain' badgeStep (placeBadges startY items) := by
  intro items startY
  refine ⟨fun p hp => ?_, placeBadgesAux_chain items 40 startY⟩
  obtain ⟨h1, h2, h3⟩ := placeBadgesAux_mem items 40 startY (le_refl 40) p hp
  exact ⟨h1, h2, h3⟩

/-- C3 witness: the single badge `"React"` (width 64) placed at the row
start. -/
theorem claim_C3_witness :
    ({ x := 40, y := 0, w := 64, label := "React", color := "#61dafb" } : BadgePlace).w =
      max 60 (min 200 (("React" : String).length * 8 + 24)) ∧
    40 ≤ ({ x := 40, y := 0, w := 64, label := "React", color := "#61dafb" } : BadgePlace).x ∧
    ({ x := 40, y := 0, w := 64, label := "React", color := "#61dafb" } : BadgePlace).x +
      ({ x := 40, y := 0, w := 64, label := "React", color := "#61dafb" } : BadgePlace).w ≤ 820 :=
  (claim_C3 [("React", "#61dafb")] 0).1
    { x := 40, y := 0, w := 64, label := "React", color := "#61dafb" } (by decide)

/-- C4 counterexample: the vector renderer groups stacks by the raw
category string (`'Other'` when absent) with no normalization at all, so
the grouping key of a `"Mystery"`-category stack is not one of the ten
known categories, falsifying the claim's "every renderer". -/
theorem claim_C4_counterexample :
    svg_group_category mysteryStack = "Mystery" ∧
    "Mystery" ∉ category_order ∧
    (svg_groups sampleMysteryCard "#667eea").map Prod.fst = ["Mystery"] ∧
    svg_group_category { key := none, label := some "X", category := none, color := none } =
      "Other" ∧
    "Other" ∉ category_order := by
  refine ⟨by decide, by decide, by decide, by decide, by decide⟩

/-- C4 (amended): in the markup (HTML) and README renderers the grouping
category is the lowercased raw category when that is one of the ten
known categories and `"tool"` otherwise (no trimming: `"Backend "` with
a trailing space falls back to `"tool"`), so the grouping key is always
one of the ten; the vector renderer groups by the raw category text with
default `"Other"` and performs no normalization
(see `claim_C4_counterexample`). -/
theorem claim_C4_amended : ∀ (c : Option String),
    normalize_category c ∈ category_order ∧
    (pyLower (c.getD "tool") ∉ category_order → normalize_category c = "tool") := by
  intro c
  simp only [normalize_category]
  by_cases h : pyLower (c.getD "tool") ∈ category_order
  · exact ⟨by rw [if_pos h]; exact h, fun hn => absurd h hn⟩
  · exact ⟨by rw [if_neg h]; decide, fun _ => by rw [if_neg h]⟩

/-- C4 witness: the spec's own example `"Backend "` (trailing space)
normalizes to `"tool"`, which is in the known set. -/
theorem claim_C4_witness :
    normalize_category (some "Backend ") ∈ category_order ∧
    normalize_category (some "Backend ") = "tool" :=
  ⟨(claim_C4_amended (some "Backend ")).1, (claim_C4_amended (some "Backend ")).2 (by decide)⟩

/-- A value starting with `"http" ++ suffix` starts with `"http"`. -/
theorem startsWith_http_of_scheme (value suffix : String)
    (h : pyStartsWith value ("http" ++ suffix) = true) :
    pyStartsWith value "http" = true := by
  unfold pyStartsWith at h ⊢
  rw [List.isPrefixOf_iff_prefix] at h ⊢
  have hsplit : ("http" ++ suffix).toList = "http".toList ++ suffix.toList := rfl
  rw [hsplit] at h
  exact (List.prefix_append "http".toList suffix.toList).trans h

/-- The integer comparison implemented by `is_light_color` is exactly
the claim's luminance rule in exact arithmetic. -/
theorem lum_iff (r g b : Nat) :
    127500 < 299 * r + 587 * g + 114 * b ↔
      ((0.299 * (r : ℚ) + 0.587 * (g : ℚ) + 0.114 * (b : ℚ)) / 255 > 1 / 2) := by
  rw [show (0.299 : ℚ) = 299 / 1000 from by norm_num,
      show (0.587 : ℚ) = 587 / 1000 from by norm_num,
      show (0.114 : ℚ) = 114 / 1000 from by norm_num,
      gt_iff_lt, lt_div_iff₀ (by norm_num : (0 : ℚ) < 255)]
  constructor
  · intro h
    have h' : (127500 : ℚ) < ((299 * r + 587 * g + 114 * b : Nat) : ℚ) := by exact_mod_cast h
    push_cast at h'
    linarith
  · intro h
    have h' : (127500 : ℚ) < ((299 * r + 587 * g + 114 * b : Nat) : ℚ) := by
      push_cast
      linarith
    exact_mod_cast h'

/-- C5: each renderer is a pure function of its inputs — rendering the
same `(ProfileCard, StatsSnapshot)` pair (plus the owner login and the
static configuration) twice, under arbitrary and different ambient
clock/randomness environments, produces byte-identical output for the
vector, markup and both snippet renderers. -/
theorem claim_C5 : ∀ (e1 e2 : RenderEnv) (st : Settings) (card : ProfileCard)
    (login : String) (stats : Option StatsSnapshot),
    generate_svg e1 card login stats = generate_svg e2 card login stats ∧
    generate_html e1 st card login = generate_html e2 st card login ∧
    generate_svg_markdown e1 st card login = generate_svg_markdown e2 st card login ∧
    generate_readme_template e1 st card login stats =
      generate_readme_template e2 st card login stats :=
  fun _ _ _ _ _ _ => ⟨rfl, rfl, rfl, rfl⟩

/-- C6 counterexample: the vector renderer's badge text is emitted with
the hardcoded `fill="#ffffff"` even over a light (`#ffffff`) badge
background, where the luminance rule demands the dark (black) variant —
the contrast rule is not applied by the vector renderer's badge text. -/
theorem claim_C6_counterexample :
    is_light_color "#ffffff" = true ∧
    strContains (svg_badge_group { x := 40, y := 244, w := 60, label := "abc", color := "#ffffff" })
      "text-anchor=\"middle\" fill=\"#ffffff\"" = true ∧
    strContains (svg_badge_group { x := 40, y := 244, w := 60, label := "abc", color := "#ffffff" })
      "black" = false := by
  refine ⟨by decide, by decide, by decide⟩

/-- C6 (amended): for every background color whose channels parse as
`(r, g, b)`, the classification of `_is_light_color` agrees with the
claim's exact rule `(0.299r + 0.587g + 0.114b)/255 > 0.5` — except at
the single triple `(218, 58, 248)`, where the source's double-precision
arithmetic classifies a luminance of exactly 1/2 as light — and the
markup renderer's badge text color and the icon color shared by the
markup and README renderers follow that rule (black over light, white
over dark).  The vector renderer's badge text does not follow the rule
(see `claim_C6_counterexample`). -/
theorem claim_C6_amended : ∀ (s : String) (r g b : Nat),
    parse_hex_channels s = some (r, g, b) → (r, g, b) ≠ (218, 58, 248) →
    ((is_light_color s = true) ↔
      ((0.299 * (r : ℚ) + 0.587 * (g : ℚ) + 0.114 * (b : ℚ)) / 255 > 1 / 2)) ∧
    html_badge_text_color s =
      (if (0.299 * (r : ℚ) + 0.587 * (g : ℚ) + 0.114 * (b : ℚ)) / 255 > 1 / 2 then "black"
       else "white") ∧
    badge_icon_color s =
      (if (0.299 * (r : ℚ) + 0.587 * (g : ℚ) + 0.114 * (b : ℚ)) / 255 > 1 / 2 then "black"
       else "white") := by
  intro s r g b hparse hne
  have hbeq : (r == 218 && g == 58 && b == 248) = false := by
    cases hb : (r == 218 && g == 58 && b == 248)
    · rfl
    · simp only [Bool.and_eq_true, beq_iff_eq] at hb
      exact absurd (by rw [hb.1.1, hb.1.2, hb.2]) hne
  have hlight : is_light_color s = decide (127500 < 299 * r + 587 * g + 114 * b) := by
    unfold is_light_color
    rw [hparse]
    simp [hbeq]
  have hiff : (is_light_color s = true) ↔
      ((0.299 * (r : ℚ) + 0.587 * (g : ℚ) + 0.114 * (b : ℚ)) / 255 > 1 / 2) := by
    rw [hlight, decide_eq_true_iff]
    exact lum_iff r g b
  refine ⟨hiff, ?_, ?_⟩
  · by_cases hq : (0.299 * (r : ℚ) + 0.587 * (g : ℚ) + 0.114 * (b : ℚ)) / 255 > 1 / 2
    · have h1 : html_badge_text_color s = "black" := by
        simp [html_badge_text_color, hiff.2 hq]
      rw [h1, if_pos hq]
    · have hfalse : is_light_color s = false := by
        cases hcase : is_light_color s
        · rfl
        · exact absurd (hiff.1 hcase) hq
      have h1 : html_badge_text_color s = "white" := by
        simp [html_badge_text_color, hfalse]
      rw [h1, if_neg hq]
  · by_cases hq : (0.299 * (r : ℚ) + 0.587 * (g : ℚ) + 0.114 * (b : ℚ)) / 255 > 1 / 2
    · have h1 : badge_icon_color s = "black" := by
        simp [badge_icon_color, hiff.2 hq]
      rw [h1, if_pos hq]
    · have hfalse : is_light_color s = false := by
        cases hcase : is_light_color s
        · rfl
        · exact absurd (hiff.1 hcase) hq
      have h1 : badge_icon_color s = "white" := by
        simp [badge_icon_color, hfalse]
      rw [h1, if_neg hq]

/-- C6 witness: black (`#000000`), luminance 0, classified dark and
paired with the white variant by both color choosers. -/
theorem claim_C6_witness :
    ((is_light_color "#000000" = true) ↔
      ((0.299 * ((0 : Nat) : ℚ) + 0.587 * ((0 : Nat) : ℚ) + 0.114 * ((0 : Nat) : ℚ)) / 255 >
        1 / 2)) ∧
    html_badge_text_color "#000000" =
      (if (0.299 * ((0 : Nat) : ℚ) + 0.587 * ((0 : Nat) : ℚ) + 0.114 * ((0 : Nat) : ℚ)) / 255 >
          1 / 2 then "black"
       else "white") ∧
    badge_icon_color "#000000" =
      (if (0.299 * ((0 : Nat) : ℚ) + 0.587 * ((0 : Nat) : ℚ) + 0.114 * ((0 : Nat) : ℚ)) / 255 >
          1 / 2 then "black"
       else "white") :=
  claim_C6_amended "#000000" 0 0 0 (by decide) (by decide)

/-- C7: the claim that all user-supplied text is entity-escaped before
being embedded in markup output fails in the README template's contact
block — the raw contact value (here carrying a double quote) is
interpolated verbatim into the link's `title` and `alt` attributes,
while `html.escape` would have rewritten it. -/
theorem claim_C7_code_bug :
    pyHtmlEscape "x\" title=\"gotcha" ≠ "x\" title=\"gotcha" ∧
    strContains
      (readme_contact_entry
        { ctype := some "mail", label := some "Email", value := some "x\" title=\"gotcha" })
      "title=\"x\" title=\"gotcha\"" = true ∧
    strContains
      (readme_contact_entry
        { ctype := some "mail", label := some "Email", value := some "x\" title=\"gotcha" })
      "alt=\"EMAIL: x\" title=\"gotcha\"" = true := by
  refine ⟨by decide, by decide, by decide⟩

/-- C8: with `show_stacks = false` the vector and markup outputs are
independent of the (possibly non-empty) stacks data — they equal the
output for an empty stack list — and the stack-section block each
renderer would emit is the empty string, so neither output contains a
stack section. -/
theorem claim_C8 : ∀ (env : RenderEnv) (st : Settings) (card : ProfileCard)
    (login : String) (stats : Option StatsSnapshot),
    card.show_stacks = false →
    generate_svg env card login stats =
      generate_svg env { card with stackList := [] } login stats ∧
    generate_html env st card login =
      generate_html env st { card with stackList := [] } login ∧
    (∀ p y, svg_stacks_render (svg_groups card p) y = ("", y)) ∧
    html_stacks_section card = "" := by
  intro env st card login stats h
  have hgroups : ∀ p, svg_groups card p = [] := fun p => by simp [svg_groups, h]
  have hgroups2 : ∀ p, svg_groups { card with stackList := [] } p = [] := fun p => by
    simp [svg_groups]
  have hch : svg_contact_height { card with stackList := [] } = svg_contact_height card := rfl
  have hcs : ∀ y, svg_contacts_section { card with stackList := [] } y =
      svg_contacts_section card y := fun y => rfl
  have hss : ∀ y, svg_stats_section { card with stackList := [] } stats y =
      svg_stats_section card stats y := fun y => rfl
  have hhc : html_contacts_section { card with stackList := [] } =
      html_contacts_section card := rfl
  have hhb : html_baekjoon_section { card with stackList := [] } =
      html_baekjoon_section card := rfl
  have hhs : ∀ g u, html_stats_section { card with stackList := [] } g u =
      html_stats_section card g u := fun g u => rfl
  have hhr : html_repos_section { card with stackList := [] } =
      html_repos_section card := rfl
  refine ⟨?_, ?_, ?_, ?_⟩
  · simp only [generate_svg, hgroups, hgroups2, hch, hcs, hss]
  · simp only [generate_html, hhc, hhb, hhs, hhr]
    simp [html_stacks_section, h]
  · intro p y
    rw [hgroups p]
    simp [svg_stacks_render]
  · simp [html_stacks_section, h]

/-- C8 witness: a concrete card with two stacks and `show_stacks =
false`. -/
theorem claim_C8_witness :
    generate_svg sampleEnv sampleHiddenStacksCard "octo" none =
      generate_svg sampleEnv { sampleHiddenStacksCard with stackList := [] } "octo" none ∧
    generate_html sampleEnv sampleSettings sampleHiddenStacksCard "octo" =
      generate_html sampleEnv sampleSettings
        { sampleHiddenStacksCard with stackList := [] } "octo" ∧
    html_stacks_section sampleHiddenStacksCard = "" :=
  ⟨(claim_C8 sampleEnv sampleSettings sampleHiddenStacksCard "octo" none rfl).1,
   (claim_C8 sampleEnv sampleSettings sampleHiddenStacksCard "octo" none rfl).2.1,
   (claim_C8 sampleEnv sampleSettings sampleHiddenStacksCard "octo" none rfl).2.2.2⟩

/-- C9: the markup renderer's contact link target follows the value's
shape: an `@`-bearing value that does not start with `"http"` becomes a
`mailto:` reference, a value starting with `"http://"` or `"https://"`
is used directly, and any other value is prefixed with `"https://"`. -/
theorem claim_C9 : ∀ (value : String),
    (pyContains value '@' = true ∧ pyStartsWith value "http" = false →
      (html_contact_link value).1 = "mailto:" ++ value) ∧
    (pyStartsWith value "http://" = true ∨ pyStartsWith value "https://" = true →
      (html_contact_link value).1 = value) ∧
    (¬(pyContains value '@' = true ∧ pyStartsWith value "http" = false) →
      ¬(pyStartsWith value "http://" = true ∨ pyStartsWith value "https://" = true) →
      (html_contact_link value).1 = "https://" ++ value) := by
  intro value
  refine ⟨fun h => ?_, fun h => ?_, fun h1 h2 => ?_⟩
  · simp [html_contact_link, h.1, h.2]
  · have hhttp : pyStartsWith value "http" = true := by
      rcases h with h | h
      · exact startsWith_http_of_scheme value "://" h
      · exact startsWith_http_of_scheme value "s://" h
    have hurl : (pyStartsWith value "http://" || pyStartsWith value "https://") = true := by
      rcases h with h | h <;> simp [h]
    simp [html_contact_link, hhttp, hurl]
  · have hemail : (pyContains value '@' && !pyStartsWith value "http") = false := by
      cases hc : pyContains value '@' <;> cases hs : pyStartsWith value "http" <;> simp_all
    have hurl : (pyStartsWith value "http://" || pyStartsWith value "https://") = false := by
      cases h7 : pyStartsWith value "http://" <;>
        cases h8 : pyStartsWith value "https://" <;> simp_all
    simp [html_contact_link, hemail, hurl]

/-- C9 witness: one value of each shape. -/
theorem claim_C9_witness :
    (html_contact_link "user@mail.com").1 = "mailto:user@mail.com" ∧
    (html_contact_link "https://a.io").1 = "https://a.io" ∧
    (html_contact_link "example.com").1 = "https://example.com" :=
  ⟨(claim_C9 "user@mail.com").1 ⟨by decide, by decide⟩,
   (claim_C9 "https://a.io").2.1 (Or.inr (by decide)),
   (claim_C9 "example.com").2.2 (by decide) (by decide)⟩

/-- C10: the canvas-height computation and the badge placement loop of
`generate_svg` disagree — the height loop accumulates widths with an 8px
gap against a 780px budget while the placement loop uses a 12px gap
against the 820px right edge from `x = 40` (the same 780px of usable
row) — so on four badges of widths 200, 200, 200, 152 the height
computation assumes one row (a 28px-tall block inside an 82px category
block) while the placement loop wraps the fourth badge to a second row
at y-offset 38, overflowing the computed canvas height. -/
theorem claim_C10_code_bug :
    heightCalcRows c10_labels = 1 ∧
    placedRows c10_labels = 2 ∧
    (placeBadges 0 c10_badges).map BadgePlace.y = [0, 0, 0, 38] ∧
    svg_category_height c10_badges = 82 := by
  refine ⟨by decide, by decide, by decide, by decide⟩

end GitCard
